import Mathlib

/-!
Shallow embedding of the fastwebsockets core (`src/lib.rs`).

Bytes are modelled as `Nat` (values < 256 on real wires; the bit operations
`&&&` match the source's `&` on `u8`).  The async byte stream is modelled as a
`List Nat` of incoming bytes on the read side; reads deliver the requested
bytes when available (`UnexpectedEOF` / an I/O error otherwise, matching the
`eof!` loops respectively `read_exact`).  The write side of the stream is
modelled inside the session state: `written` collects the wire bytes of each
completed write, and `writeFails` makes every underlying write fail, which
models a broken transport.  The `Payload` borrow/own split and the `spill`
buffer of the source affect only buffer reuse, not any value a caller can
observe, so payloads are plain `List Nat` and the parser returns the unread
remainder of the stream.

The modules `frame.rs`, `mask.rs`, `close.rs` and `error.rs` of the repository
are not part of the given sources; the definitions taken from them are marked
`Modelled from the spec:` and follow the spec's wording.  The DEFLATE
decompressor lives in the external crate `miniz_oxide`; `inflate_payload` is
therefore abstracted as an explicit function parameter `infl` (returning
`none` exactly when inflation fails, which `lib.rs` maps to `InvalidEncoding`).
-/

deriving instance DecidableEq for Except

namespace FastWS

/-- Connection role, from `enum Role` in `lib.rs`. -/
inductive Role
  | Server
  | Client
deriving DecidableEq

/-- Modelled from the spec: the error kinds of §7 (`error.rs` is not among the
given sources).  `IoError` stands for `IoError(inner)` with the inner error
dropped. -/
inductive WebSocketError
  | UnexpectedEOF
  | InvalidFragment
  | InvalidUTF8
  | InvalidContinuationFrame
  | PingFrameTooLarge
  | FrameTooLarge
  | InvalidCloseFrame
  | InvalidCloseCode
  | ReservedBitsNotZero
  | ControlFrameFragmented
  | ConnectionClosed
  | InvalidOpCode
  | InvalidEncoding
  | IoError
deriving DecidableEq

/-- Modelled from the spec: `OpCode` over
{Continuation=0, Text=1, Binary=2, Close=8, Ping=9, Pong=10} (`frame.rs` is
not among the given sources). -/
inductive OpCode
  | Continuation
  | Text
  | Binary
  | Close
  | Ping
  | Pong
deriving DecidableEq

/-- Modelled from the spec: decoding a 4-bit opcode value; values 3 to 7 and
11 to 15 are protocol errors (`InvalidOpCode`). -/
def OpCode.try_from (n : Nat) : Except WebSocketError OpCode :=
  match n with
  | 0 => .ok .Continuation
  | 1 => .ok .Text
  | 2 => .ok .Binary
  | 8 => .ok .Close
  | 9 => .ok .Ping
  | 10 => .ok .Pong
  | _ => .error .InvalidOpCode

/-- Modelled from the spec: the wire value of an opcode (used by the
serializer). -/
def OpCode.toNat : OpCode → Nat
  | .Continuation => 0
  | .Text => 1
  | .Binary => 2
  | .Close => 8
  | .Ping => 9
  | .Pong => 10

/-- Modelled from the spec: `is_control(op)` is true for Close/Ping/Pong. -/
def is_control : OpCode → Bool
  | .Close => true
  | .Ping => true
  | .Pong => true
  | _ => false

/-- Modelled from the spec: the mask engine `unmask(buf, key)`:
`buf[i] ^= key[i & 3]` (`mask.rs` is not among the given sources). -/
def unmask (buf : List Nat) (key : List Nat) : List Nat :=
  buf.mapIdx fun i b => b ^^^ key.getD (i % 4) 0

/-- Modelled from the spec: a `Frame` carries `fin`, `opcode`, an optional
4-byte mask key and the payload (`frame.rs` is not among the given sources). -/
structure Frame where
  fin : Bool
  opcode : OpCode
  mask : Option (List Nat)
  payload : List Nat
deriving DecidableEq

/-- Modelled from the spec: `frame.unmask()` XORs the payload with the stored
key and clears it; it is a no-op when no key is present. -/
def Frame.unmask (f : Frame) : Frame :=
  match f.mask with
  | none => f
  | some key => { f with payload := FastWS.unmask f.payload key, mask := none }

/-- Modelled from the spec: `frame.mask()` stores a freshly generated 32-bit
key and XORs the payload with it.  The random key generation is abstracted:
the key is passed in (the session supplies its `maskKey` field). -/
def Frame.maskWith (f : Frame) (key : List Nat) : Frame :=
  { f with payload := FastWS.unmask f.payload key, mask := some key }

/-- Continuation-byte test for the UTF-8 validator (`0x80 ≤ b ≤ 0xBF`). -/
def isCont (b : Nat) : Bool :=
  decide (0x80 ≤ b ∧ b ≤ 0xBF)

/-- Models the UTF-8 validity check of Rust's `std::str::from_utf8` (and
`Frame::is_utf8`), byte-level, with the standard well-formedness table
(no overlong forms, no surrogates, code points ≤ U+10FFFF). -/
def utf8Valid : List Nat → Bool
  | [] => true
  | b :: t =>
    if b ≤ 0x7F then utf8Valid t
    else if 0xC2 ≤ b ∧ b ≤ 0xDF then
      match t with
      | c1 :: t1 => if isCont c1 = true then utf8Valid t1 else false
      | [] => false
    else if b = 0xE0 then
      match t with
      | c1 :: c2 :: t2 =>
        if (0xA0 ≤ c1 ∧ c1 ≤ 0xBF) ∧ isCont c2 = true then utf8Valid t2 else false
      | _ => false
    else if (0xE1 ≤ b ∧ b ≤ 0xEC) ∨ b = 0xEE ∨ b = 0xEF then
      match t with
      | c1 :: c2 :: t2 =>
        if isCont c1 = true ∧ isCont c2 = true then utf8Valid t2 else false
      | _ => false
    else if b = 0xED then
      match t with
      | c1 :: c2 :: t2 =>
        if (0x80 ≤ c1 ∧ c1 ≤ 0x9F) ∧ isCont c2 = true then utf8Valid t2 else false
      | _ => false
    else if b = 0xF0 then
      match t with
      | c1 :: c2 :: c3 :: t3 =>
        if (0x90 ≤ c1 ∧ c1 ≤ 0xBF) ∧ isCont c2 = true ∧ isCont c3 = true then
          utf8Valid t3
        else false
      | _ => false
    else if 0xF1 ≤ b ∧ b ≤ 0xF3 then
      match t with
      | c1 :: c2 :: c3 :: t3 =>
        if isCont c1 = true ∧ isCont c2 = true ∧ isCont c3 = true then
          utf8Valid t3
        else false
      | _ => false
    else if b = 0xF4 then
      match t with
      | c1 :: c2 :: c3 :: t3 =>
        if (0x80 ≤ c1 ∧ c1 ≤ 0x8F) ∧ isCont c2 = true ∧ isCont c3 = true then
          utf8Valid t3
        else false
      | _ => false
    else false

/-- Modelled from the spec: `Frame::is_utf8` checks the payload for UTF-8
validity. -/
def Frame.is_utf8 (f : Frame) : Bool :=
  utf8Valid f.payload

/-- Big-endian value of a byte list (covers `u16::from_be_bytes` and
`usize::from_be_bytes` in the header parser). -/
def beNat (bytes : List Nat) : Nat :=
  bytes.foldl (fun acc b => 256 * acc + b) 0

/-- Big-endian 2-byte encoding of a 16-bit value. -/
def byteBE2 (n : Nat) : List Nat :=
  [n / 256 % 256, n % 256]

/-- Big-endian 8-byte encoding of a 64-bit value. -/
def byteBE8 (n : Nat) : List Nat :=
  [n / 2 ^ 56 % 256, n / 2 ^ 48 % 256, n / 2 ^ 40 % 256, n / 2 ^ 32 % 256,
   n / 2 ^ 24 % 256, n / 2 ^ 16 % 256, n / 2 ^ 8 % 256, n % 256]

/-- Modelled from the spec: `Frame::close(code, reason)` builds a Close frame
whose body is the 2-byte big-endian code followed by the reason bytes. -/
def Frame.close (code : Nat) (reason : List Nat) : Frame :=
  { fin := true, opcode := .Close, mask := none, payload := byteBE2 code ++ reason }

/-- Modelled from the spec: `Frame::close_raw(body)` builds a Close frame with
the given raw body. -/
def Frame.close_raw (body : List Nat) : Frame :=
  { fin := true, opcode := .Close, mask := none, payload := body }

/-- Modelled from the spec: `Frame::pong(body)`. -/
def Frame.pong (body : List Nat) : Frame :=
  { fin := true, opcode := .Pong, mask := none, payload := body }

/-- Modelled from the spec: the §4.1 serializer (`Frame::write` /
`Frame::writev` emit the same wire bytes; the source picks between them only
by buffer strategy): byte 0 is `fin<<7 | opcode` (RSV clear), byte 1 is the
mask bit and the length code, then the extended length, the mask key if
present, and the payload. -/
def Frame.write (f : Frame) : List Nat :=
  let len := f.payload.length
  let lenCode := if len ≤ 125 then len else if len ≤ 65535 then 126 else 127
  let ext := if len ≤ 125 then [] else if len ≤ 65535 then byteBE2 len else byteBE8 len
  let b0 := (if f.fin then 128 else 0) + f.opcode.toNat
  let b1 := (if f.mask.isSome then 128 else 0) + lenCode
  b0 :: b1 :: (ext ++ (match f.mask with | some k => k | none => []) ++ f.payload)

/-- Modelled from the spec: `CloseCode::is_allowed` (`close.rs` is not among
the given sources): true for the named application-valid codes
1000-1003, 1007-1011 plus the Application (3000-3999) and Private (4000-4999)
ranges; 1004/1005/1006/1015 and every other value are not allowed. -/
def CloseCode.is_allowed (c : Nat) : Bool :=
  if c = 1000 ∨ c = 1001 ∨ c = 1002 ∨ c = 1003 ∨ c = 1007 ∨ c = 1008 ∨ c = 1009 ∨
     c = 1010 ∨ c = 1011 ∨ (3000 ≤ c ∧ c ≤ 4999) then true else false

/-- Session state of `WebSocket<S>` (plus `WriteHalf`).  `written` and
`writeFails` model the write side of the underlying stream; `maskKey` models
the next key the client-side RNG would produce; the serializer scratch
`write_buffer` and the receive scratch are buffer-reuse artifacts with no
observable value and are not modelled. -/
structure WebSocket where
  closed : Bool
  written : List (List Nat)
  writeFails : Bool
  vectored : Bool
  autoClose : Bool
  autoPong : Bool
  maxMessageSize : Nat
  writevThreshold : Nat
  autoApplyMask : Bool
  role : Role
  maskKey : List Nat
deriving DecidableEq

/-- `WebSocket::after_handshake`: defaults `vectored=true`, `auto_close=true`,
`auto_pong=true`, `auto_apply_mask=true`, `max_message_size = 64 << 20`,
`writev_threshold = 1024`, with an open, healthy stream. -/
def after_handshake (role : Role) : WebSocket :=
  { closed := false
    written := []
    writeFails := false
    vectored := true
    autoClose := true
    autoPong := true
    maxMessageSize := 64 * 1048576
    writevThreshold := 1024
    autoApplyMask := true
    role := role
    maskKey := [1, 2, 3, 4] }

/-- `WebSocket::write_frame`: masks first when role is Client and auto-mask is
enabled, sets `closed` when the opcode is Close, then emits the serialized
frame (vectored and plain writes produce the same wire bytes).  A failing
underlying write surfaces as `IoError`; note that `closed` is already set at
that point, as in the source. -/
def write_frame (ws : WebSocket) (frame : Frame) : Except WebSocketError Unit × WebSocket :=
  let frame := if ws.role = Role.Client ∧ ws.autoApplyMask = true then
    frame.maskWith ws.maskKey else frame
  let ws1 := if frame.opcode = OpCode.Close then { ws with closed := true } else ws
  if ws1.writeFails = true then (.error .IoError, ws1)
  else (.ok (), { ws1 with written := ws1.written ++ [frame.write] })

/-- Header-loop read of `n` bytes (the `eof!`-guarded `stream.read` loops):
yields the bytes and the rest, or `UnexpectedEOF` when the stream ends. -/
def takeHead (n : Nat) (l : List Nat) : Except WebSocketError (List Nat × List Nat) :=
  if n ≤ l.length then .ok (l.take n, l.drop n) else .error .UnexpectedEOF

/-- Payload read of `n` bytes: the in-scratch slice never fails, and the
`read_exact` path of the source maps a truncated stream to an I/O error. -/
def takePayload (n : Nat) (l : List Nat) : Except WebSocketError (List Nat × List Nat) :=
  if n ≤ l.length then .ok (l.take n, l.drop n) else .error .IoError

/-- `WebSocket::parse_frame_header`, over the incoming byte list.  `infl`
abstracts `inflate_payload` (external `miniz_oxide` inflation; `none` means
inflation failed, which the source maps to `InvalidEncoding`).  Note that, as
in the source, inflation runs here, on the still-masked wire payload; the
unmask step happens later in `read_frame_inner`. -/
def parse_frame_header (infl : List Nat → Option (List Nat)) (ws : WebSocket)
    (input : List Nat) : Except WebSocketError (Frame × List Nat) :=
  match input with
  | b0 :: b1 :: rest =>
    let fin : Bool := b0 &&& 128 != 0
    let rsv1 : Bool := b0 &&& 64 != 0
    let rsv2 : Bool := b0 &&& 32 != 0
    let rsv3 : Bool := b0 &&& 16 != 0
    let compressed : Bool := rsv1 && !rsv2 && !rsv3
    if !compressed && (rsv1 || rsv2 || rsv3) then
      .error .ReservedBitsNotZero
    else
      match OpCode.try_from (b0 &&& 15) with
      | .error e => .error e
      | .ok opcode =>
        let masked : Bool := b1 &&& 128 != 0
        let lengthCode := b1 &&& 127
        let extra := if lengthCode = 126 then 2 else if lengthCode = 127 then 8 else 0
        match takeHead extra rest with
        | .error e => .error e
        | .ok (ext, rest2) =>
          let length := if extra = 0 then lengthCode else beNat ext
          match (if masked then
                   match takeHead 4 rest2 with
                   | .error e => .error e
                   | .ok (k, rest3) => .ok (some k, rest3)
                 else .ok (none, rest2) :
                 Except WebSocketError (Option (List Nat) × List Nat)) with
          | .error e => .error e
          | .ok (mask, rest3) =>
            if is_control opcode && !fin then .error .ControlFrameFragmented
            else if opcode = OpCode.Ping ∧ 125 < length then .error .PingFrameTooLarge
            else if ws.maxMessageSize ≤ length then .error .FrameTooLarge
            else
              match takePayload length rest3 with
              | .error e => .error e
              | .ok (payload, rest4) =>
                if compressed then
                  match infl payload with
                  | none => .error .InvalidEncoding
                  | some p => .ok (⟨fin, opcode, mask, p⟩, rest4)
                else .ok (⟨fin, opcode, mask, payload⟩, rest4)
  | _ => .error .UnexpectedEOF

/-- The `OpCode::Close` arm of `read_frame_inner` (reached when
`auto_close ∧ ¬closed`): validate the body, echo a Close (discarding any
write error, as the source's `let _ =` does), and return the received frame,
or fail with the corresponding close error. -/
def close_branch (ws : WebSocket) (frame : Frame) : Except WebSocketError Frame × WebSocket :=
  if frame.payload.length = 0 then
    let r := write_frame ws (Frame.close_raw frame.payload)
    (.ok frame, r.2)
  else if frame.payload.length = 1 then (.error .InvalidCloseFrame, ws)
  else
    let code := 256 * frame.payload.getD 0 0 + frame.payload.getD 1 0
    if utf8Valid (frame.payload.drop 2) = false then (.error .InvalidUTF8, ws)
    else if CloseCode.is_allowed code = false then
      let r := write_frame ws (Frame.close 1002 (frame.payload.drop 2))
      (.error .InvalidCloseCode, r.2)
    else
      let r := write_frame ws (Frame.close_raw frame.payload)
      (.ok frame, r.2)

/-- `WebSocket::read_frame_inner`: the control-frame policy loop.  The `loop`
of the source is given explicit fuel (each continuing iteration consumes at
least two stream bytes, so any fuel above half the input length is enough;
exhausted fuel reports the stream as ended).  Returns the result together
with the final session state. -/
def read_frame_inner (infl : List Nat → Option (List Nat)) :
    Nat → WebSocket → List Nat → Except WebSocketError Frame × WebSocket
  | 0, ws, _ => (.error .UnexpectedEOF, ws)
  | fuel + 1, ws, input =>
    match parse_frame_header infl ws input with
    | .error e => (.error e, ws)
    | .ok (f0, rest) =>
      let frame := if ws.role = Role.Server ∧ ws.autoApplyMask = true then f0.unmask else f0
      if ws.closed = true ∧ frame.opcode ≠ OpCode.Close then (.error .ConnectionClosed, ws)
      else if frame.opcode = OpCode.Close ∧ ws.autoClose = true ∧ ws.closed = false then
        close_branch ws frame
      else if frame.opcode = OpCode.Ping ∧ ws.autoPong = true then
        let r := write_frame ws (Frame.pong frame.payload)
        match r.1 with
        | .error e => (.error e, r.2)
        | .ok _ => read_frame_inner infl fuel r.2 rest
      else if frame.opcode = OpCode.Text then
        if frame.fin = true ∧ utf8Valid frame.payload = false then (.error .InvalidUTF8, ws)
        else (.ok frame, ws)
      else (.ok frame, ws)

/-- `WebSocket::read_frame`: one call of the policy loop with ample fuel. -/
def read_frame (infl : List Nat → Option (List Nat)) (ws : WebSocket)
    (input : List Nat) : Except WebSocketError Frame × WebSocket :=
  read_frame_inner infl (input.length + 1) ws input

/-- Inflation stand-in that always fails (no claim below exercises it on a
compressed frame unless said otherwise). -/
def inflNone : List Nat → Option (List Nat) :=
  fun _ => none

/-- Inflation stand-in returning the input unchanged. -/
def inflId : List Nat → Option (List Nat) :=
  fun l => some l

/-- Inflation stand-in that doubles its input; used to separate the two
possible orders of unmasking and inflation. -/
def inflDouble : List Nat → Option (List Nat) :=
  fun l => some (l ++ l)

/-- A session on which a Close frame has already been written. -/
def wsClosedServer : WebSocket :=
  { after_handshake .Server with closed := true }

/-- Unmasking preserves the opcode. -/
theorem Frame.unmask_opcode (f : Frame) : f.unmask.opcode = f.opcode := by
  cases f with
  | mk fin op m p => cases m <;> rfl

/-- Unmasking preserves the fin bit. -/
theorem Frame.unmask_fin (f : Frame) : f.unmask.fin = f.fin := by
  cases f with
  | mk fin op m p => cases m <;> rfl

/-- Unmasking a frame without a mask key is the identity. -/
theorem Frame.unmask_of_mask_none (f : Frame) (h : f.mask = none) : f.unmask = f := by
  cases f with
  | mk fin op m p => cases m <;> simp_all [Frame.unmask]

/-- Claim C1 counterexample: on a default Server session whose `closed` flag
is set, `write_frame` of a Text frame succeeds instead of failing with
`ConnectionClosed` — `WebSocket::write_frame` contains no check of the
`closed` flag. -/
theorem c1_counterexample :
    (write_frame wsClosedServer ⟨true, .Text, none, [120]⟩).fst = Except.ok () ∧
    (write_frame wsClosedServer ⟨true, .Text, none, [120]⟩).fst ≠
      Except.error WebSocketError.ConnectionClosed := by
  refine ⟨by decide, by decide⟩

/-- Claim C1 (amended): for every session on which a Close frame has already
been written (the `closed` flag is set), a subsequent `write_frame` does not
fail with `ConnectionClosed`; the frame is serialized and written regardless,
and only an underlying stream failure can make the call fail. -/
theorem c1_amended (ws : WebSocket) (f : Frame) (_h : ws.closed = true) :
    (write_frame ws f).fst ≠ Except.error WebSocketError.ConnectionClosed := by
  unfold write_frame
  dsimp only
  split_ifs <;> simp

/-- Witness for `c1_amended` at a concrete closed session. -/
theorem c1_amended_witness :
    wsClosedServer.closed = true ∧
    (write_frame wsClosedServer ⟨true, .Binary, none, []⟩).fst ≠
      Except.error WebSocketError.ConnectionClosed :=
  ⟨by decide, c1_amended wsClosedServer ⟨true, .Binary, none, []⟩ (by decide)⟩

/-- Claim C2 (code bug, demonstrated): a Server session with default
configuration receives the masked, RSV1-flagged Binary frame
`C2 81 | key 01 00 00 00 | payload 00`.  The source inflates inside
`parse_frame_header` and unmasks only afterwards in `read_frame_inner`, so
with the inflation stand-in `inflDouble` the yielded payload is
`unmask (inflate [0x00])` = `[1, 0]`, whereas the claimed order
`inflate (unmask [0x00])` gives `[1, 1]`. -/
theorem c2_bug :
    (read_frame inflDouble (after_handshake .Server) [0xC2, 0x81, 1, 0, 0, 0, 0]).fst
      = .ok ⟨true, .Binary, none, [1, 0]⟩ ∧
    [1, 0] = unmask ((inflDouble [0]).getD []) [1, 0, 0, 0] ∧
    inflDouble (unmask [0] [1, 0, 0, 0]) = some [1, 1] ∧
    ([1, 0] : List Nat) ≠ [1, 1] := by
  refine ⟨by decide, by decide, by decide, by decide⟩

/-- Claim C3 counterexample: a default Server session reading the unmasked
client Text frame `81 01 48` returns the frame instead of failing — the
parser never rejects a clear mask bit. -/
theorem c3_counterexample :
    (read_frame inflNone (after_handshake .Server) [0x81, 1, 0x48]).fst
      = .ok ⟨true, .Text, none, [0x48]⟩ := by
  decide

/-- Parsing a 3-byte unmasked Binary frame `82 03 x y z`: no masking check is
involved, only the size cap can reject it. -/
theorem parse_binary3 (infl : List Nat → Option (List Nat)) (ws : WebSocket)
    (x y z : Nat) :
    parse_frame_header infl ws [0x82, 3, x, y, z]
      = if ws.maxMessageSize ≤ 3 then .error .FrameTooLarge
        else .ok (⟨true, .Binary, none, [x, y, z]⟩, []) := by
  rfl

/-- Claim C3 (amended): a Server session does not reject unmasked client
frames; an unmasked 3-byte Binary frame is returned as-is by the read loop
(on any open session whose size cap admits it), whatever the byte values. -/
theorem c3_amended (x y z : Nat) (ws : WebSocket) (infl : List Nat → Option (List Nat))
    (fuel : Nat) (_hrole : ws.role = .Server) (hclosed : ws.closed = false)
    (hmax : 3 < ws.maxMessageSize) :
    (read_frame_inner infl (fuel + 1) ws [0x82, 3, x, y, z]).fst
      = .ok ⟨true, .Binary, none, [x, y, z]⟩ := by
  have hp := parse_binary3 infl ws x y z
  rw [if_neg (by omega)] at hp
  simp only [read_frame_inner, hp]
  simp [Frame.unmask_of_mask_none, hclosed, close_branch]

/-- Witness for `c3_amended` at concrete bytes and a default session. -/
theorem c3_amended_witness :
    (after_handshake .Server).role = .Server ∧
    (after_handshake .Server).closed = false ∧
    3 < (after_handshake .Server).maxMessageSize ∧
    (read_frame_inner inflNone 1 (after_handshake .Server) [0x82, 3, 9, 8, 7]).fst
      = .ok ⟨true, .Binary, none, [9, 8, 7]⟩ :=
  ⟨by decide, by decide, by decide,
    c3_amended 9 8 7 (after_handshake .Server) inflNone 0 (by decide) (by decide) (by decide)⟩

/-- Claim C4: with `auto_close` on and the session not yet closed, a received
Close frame with a body of length at least 2, an allowed status code and a
valid-UTF-8 reason makes `read_frame` write exactly one Close frame whose
body is identical to the received (unmasked) body, and then return the
received frame. -/
theorem c4_close_echo (infl : List Nat → Option (List Nat)) (ws : WebSocket)
    (fuel : Nat) (input : List Nat) (f : Frame) (rest : List Nat)
    (hrole : ws.role = .Server) (hauto : ws.autoClose = true)
    (hclosed : ws.closed = false) (hfail : ws.writeFails = false)
    (hmask : ws.autoApplyMask = true)
    (hp : parse_frame_header infl ws input = .ok (f, rest))
    (hop : f.opcode = .Close)
    (hlen : 2 ≤ f.unmask.payload.length)
    (hutf : utf8Valid (f.unmask.payload.drop 2) = true)
    (hcode : CloseCode.is_allowed
      (256 * f.unmask.payload.getD 0 0 + f.unmask.payload.getD 1 0) = true) :
    read_frame_inner infl (fuel + 1) ws input
      = (.ok f.unmask,
         { ws with
           closed := true
           written := ws.written ++ [(Frame.close_raw f.unmask.payload).write] }) := by
  have h0 : ¬ f.unmask.payload.length = 0 := by omega
  have h1 : ¬ f.unmask.payload.length = 1 := by omega
  simp only [List.getD_eq_getElem?_getD] at hcode
  simp [read_frame_inner, hp, close_branch, write_frame, Frame.unmask_opcode,
        hrole, hmask, hclosed, hauto, hfail, hutf, hcode, h0, h1, hop,
        Frame.close_raw]

/-- Witness for `c4_close_echo`: the spec's close-echo scenario
`88 05 03 E8 "bye"` (Close, code 1000, reason "bye") on a default Server
session. -/
theorem c4_close_echo_witness :
    parse_frame_header inflNone (after_handshake .Server) [0x88, 5, 3, 232, 98, 121, 101]
      = .ok (⟨true, .Close, none, [3, 232, 98, 121, 101]⟩, []) ∧
    2 ≤ (Frame.unmask ⟨true, .Close, none, [3, 232, 98, 121, 101]⟩).payload.length ∧
    read_frame_inner inflNone 1 (after_handshake .Server) [0x88, 5, 3, 232, 98, 121, 101]
      = (.ok ⟨true, .Close, none, [3, 232, 98, 121, 101]⟩,
         { after_handshake .Server with
           closed := true
           written := [[0x88, 5, 3, 232, 98, 121, 101]] }) :=
  ⟨by decide, by decide,
    c4_close_echo inflNone (after_handshake .Server) 0 [0x88, 5, 3, 232, 98, 121, 101]
      ⟨true, .Close, none, [3, 232, 98, 121, 101]⟩ [] (by decide) (by decide)
      (by decide) (by decide) (by decide) (by decide) (by decide) (by decide)
      (by decide) (by decide)⟩

/-- Claim C5: with `auto_close` on and the session not yet closed, a received
Close frame whose status code is not allowed and whose reason is valid UTF-8
makes `read_frame` write a Close frame with code 1002 and the same reason,
and fail with `InvalidCloseCode`. -/
theorem c5_close_code_policing (infl : List Nat → Option (List Nat)) (ws : WebSocket)
    (fuel : Nat) (input : List Nat) (f : Frame) (rest : List Nat)
    (hrole : ws.role = .Server) (hauto : ws.autoClose = true)
    (hclosed : ws.closed = false) (hfail : ws.writeFails = false)
    (hmask : ws.autoApplyMask = true)
    (hp : parse_frame_header infl ws input = .ok (f, rest))
    (hop : f.opcode = .Close)
    (hlen : 2 ≤ f.unmask.payload.length)
    (hutf : utf8Valid (f.unmask.payload.drop 2) = true)
    (hcode : CloseCode.is_allowed
      (256 * f.unmask.payload.getD 0 0 + f.unmask.payload.getD 1 0) = false) :
    read_frame_inner infl (fuel + 1) ws input
      = (.error .InvalidCloseCode,
         { ws with
           closed := true
           written := ws.written ++ [(Frame.close 1002 (f.unmask.payload.drop 2)).write] }) := by
  have h0 : ¬ f.unmask.payload.length = 0 := by omega
  have h1 : ¬ f.unmask.payload.length = 1 := by omega
  simp only [List.getD_eq_getElem?_getD] at hcode
  simp [read_frame_inner, hp, close_branch, write_frame, Frame.unmask_opcode,
        hrole, hmask, hclosed, hauto, hfail, hutf, hcode, h0, h1, hop,
        Frame.close]

/-- Witness for `c5_close_code_policing`: the spec's invalid-code scenario
`88 02 03 EC` (Close, code 1004): the session writes `88 02 03 EA`
(Close, code 1002, empty reason) and fails with `InvalidCloseCode`. -/
theorem c5_close_code_policing_witness :
    parse_frame_header inflNone (after_handshake .Server) [0x88, 2, 3, 0xEC]
      = .ok (⟨true, .Close, none, [3, 0xEC]⟩, []) ∧
    CloseCode.is_allowed 1004 = false ∧
    read_frame_inner inflNone 1 (after_handshake .Server) [0x88, 2, 3, 0xEC]
      = (.error .InvalidCloseCode,
         { after_handshake .Server with
           closed := true
           written := [[0x88, 2, 3, 0xEA]] }) :=
  ⟨by decide, by decide,
    c5_close_code_policing inflNone (after_handshake .Server) 0 [0x88, 2, 3, 0xEC]
      ⟨true, .Close, none, [3, 0xEC]⟩ [] (by decide) (by decide) (by decide)
      (by decide) (by decide) (by decide) (by decide) (by decide) (by decide)
      (by decide)⟩

set_option maxRecDepth 80000 in
/-- Claim C6 counterexample: a default Server session reading a Pong frame
with a 126-byte payload (`8A 7E 00 7E` followed by 126 zero bytes) returns
the frame: only Ping payloads are capped at 125 bytes, so the returned
control frame violates the claimed `length ≤ 125` invariant. -/
theorem c6_counterexample :
    (read_frame inflNone (after_handshake .Server)
        (0x8A :: 0x7E :: 0x00 :: 0x7E :: List.replicate 126 0)).fst
      = .ok ⟨true, .Pong, none, List.replicate 126 0⟩ ∧
    is_control OpCode.Pong = true ∧
    ¬ (List.replicate 126 (0 : Nat)).length ≤ 125 := by
  refine ⟨by decide, by decide, by decide⟩

/-- A successfully parsed frame with a control opcode has `fin = true` (the
`ControlFrameFragmented` check of the header parser). -/
theorem parse_control_fin (infl : List Nat → Option (List Nat)) (ws : WebSocket)
    (input : List Nat) (f : Frame) (rest : List Nat)
    (hp : parse_frame_header infl ws input = .ok (f, rest))
    (hc : is_control f.opcode = true) : f.fin = true := by
  cases input with
  | nil => simp [parse_frame_header] at hp
  | cons b0 t =>
    cases t with
    | nil => simp [parse_frame_header] at hp
    | cons b1 r0 =>
      rw [parse_frame_header] at hp
      dsimp only at hp
      repeat' split at hp
      all_goals (try simp_all)
      all_goals
        (obtain ⟨hf, -⟩ := hp
         subst hf
         dsimp only at hc ⊢
         rw [bne_iff_ne]
         solve_by_elim)

/-- The Close arm returns exactly the frame it was given when it succeeds. -/
theorem close_branch_ok (ws : WebSocket) (g f : Frame) (w : WebSocket)
    (h : close_branch ws g = (.ok f, w)) : f = g := by
  unfold close_branch at h
  dsimp only at h
  by_cases h0 : g.payload.length = 0
  · rw [if_pos h0] at h
    simp_all
  · rw [if_neg h0] at h
    by_cases h1 : g.payload.length = 1
    · rw [if_pos h1] at h
      simp_all
    · rw [if_neg h1] at h
      by_cases h2 : utf8Valid (g.payload.drop 2) = false
      · rw [if_pos h2] at h
        simp_all
      · rw [if_neg h2] at h
        by_cases h3 : CloseCode.is_allowed
            (256 * g.payload.getD 0 0 + g.payload.getD 1 0) = false
        · rw [if_pos h3] at h
          simp_all
        · rw [if_neg h3] at h
          simp_all

/-- Claim C6 (amended): every frame returned by the read loop with a control
opcode has `fin = true`.  (The payload bound of at most 125 bytes is enforced
only for Ping frames, not for Close or Pong — see the counterexample.) -/
theorem c6_amended (infl : List Nat → Option (List Nat)) (fuel : Nat) :
    ∀ (ws : WebSocket) (input : List Nat) (f : Frame) (w : WebSocket),
      read_frame_inner infl fuel ws input = (.ok f, w) →
      is_control f.opcode = true → f.fin = true := by
  induction fuel with
  | zero =>
    intro ws input f w h hc
    simp [read_frame_inner] at h
  | succ n ih =>
    intro ws input f w h hc
    rw [read_frame_inner] at h
    cases hp : parse_frame_header infl ws input with
    | error e => rw [hp] at h; simp at h
    | ok pr =>
      obtain ⟨f0, rest⟩ := pr
      rw [hp] at h
      dsimp only at h
      generalize hgen :
        (if ws.role = Role.Server ∧ ws.autoApplyMask = true then f0.unmask else f0) = g at h
      have hgp : is_control g.opcode = true → g.fin = true := by
        intro hcg
        have hop : is_control f0.opcode = true := by
          rw [← hgen] at hcg
          by_cases hrm : ws.role = Role.Server ∧ ws.autoApplyMask = true
          · rw [if_pos hrm, Frame.unmask_opcode] at hcg
            exact hcg
          · rwa [if_neg hrm] at hcg
        have hfin : f0.fin = true := parse_control_fin infl ws input f0 rest hp hop
        rw [← hgen]
        by_cases hrm : ws.role = Role.Server ∧ ws.autoApplyMask = true
        · rw [if_pos hrm, Frame.unmask_fin]
          exact hfin
        · rwa [if_neg hrm]
      split at h
      · simp at h
      · split at h
        · have hfg := close_branch_ok ws g f w h
          rw [hfg] at hc ⊢
          exact hgp hc
        · split at h
          · split at h
            · simp at h
            · exact ih _ _ _ _ h hc
          · split at h
            · split at h
              · simp at h
              · simp only [Prod.mk.injEq, Except.ok.injEq] at h
                rw [← h.1] at hc ⊢
                exact hgp hc
            · simp only [Prod.mk.injEq, Except.ok.injEq] at h
              rw [← h.1] at hc ⊢
              exact hgp hc

/-- Witness for `c6_amended`: the returned Close frame of the close-echo
scenario is a control frame and indeed has `fin = true`. -/
theorem c6_amended_witness :
    read_frame_inner inflNone 1 (after_handshake .Server) [0x88, 2, 3, 232]
      = (.ok ⟨true, .Close, none, [3, 232]⟩,
         { after_handshake .Server with
           closed := true
           written := [[0x88, 2, 3, 232]] }) ∧
    is_control (OpCode.Close) = true ∧
    (⟨true, .Close, none, [3, 232]⟩ : Frame).fin = true :=
  ⟨by decide, by decide,
    c6_amended inflNone 1 (after_handshake .Server) [0x88, 2, 3, 232]
      ⟨true, .Close, none, [3, 232]⟩
      { after_handshake .Server with
        closed := true
        written := [[0x88, 2, 3, 232]] }
      (by decide) (by decide)⟩

/-- Claim C7 counterexample: a frame with only `rsv1` set (`C2 00`, a Binary
frame) is accepted by a default Server session and treated as compressed —
there is no negotiated-deflate flag in the session, and `rsv1` alone never
produces `ReservedBitsNotZero`. -/
theorem c7_counterexample :
    (read_frame inflId (after_handshake .Server) [0xC2, 0]).fst
      = .ok ⟨true, .Binary, none, []⟩ ∧
    (read_frame inflId (after_handshake .Server) [0xC2, 0]).fst
      ≠ .error .ReservedBitsNotZero ∧
    (0xC2 &&& 64 != 0) = true := by
  refine ⟨by decide, by decide, by decide⟩

/-- Claim C7 (amended): any incoming frame with `rsv2` or `rsv3` set fails
with `ReservedBitsNotZero`, on every session and whatever the remaining
bytes; a frame with only `rsv1` set is instead always treated as
compressed. -/
theorem c7_amended (infl : List Nat → Option (List Nat)) (ws : WebSocket)
    (fuel : Nat) (b0 b1 : Nat) (rest : List Nat)
    (h : (b0 &&& 32 != 0) = true ∨ (b0 &&& 16 != 0) = true) :
    read_frame_inner infl (fuel + 1) ws (b0 :: b1 :: rest)
      = (.error .ReservedBitsNotZero, ws) := by
  have hp : parse_frame_header infl ws (b0 :: b1 :: rest)
      = .error .ReservedBitsNotZero := by
    rw [parse_frame_header]
    dsimp only
    split
    · rfl
    · rename_i hcond
      exfalso
      rcases h with h | h <;> simp [h] at hcond
  simp [read_frame_inner, hp]

/-- Witness for `c7_amended`: `A2 00` (fin + rsv2 + Binary) is rejected with
`ReservedBitsNotZero` on a default Server session. -/
theorem c7_amended_witness :
    ((0xA2 &&& 32 != 0) = true ∨ (0xA2 &&& 16 != 0) = true) ∧
    read_frame_inner inflNone 1 (after_handshake .Server) [0xA2, 0]
      = (.error .ReservedBitsNotZero, after_handshake .Server) :=
  ⟨Or.inl (by decide),
    c7_amended inflNone (after_handshake .Server) 0 0xA2 0 [] (Or.inl (by decide))⟩

/-- Claim C8 counterexample: with `max_message_size = 1024`, the Ping frame
`89 7E 04 00` declares a length of exactly 1024 (`≥` the cap), yet the read
fails with `PingFrameTooLarge` — the Ping check runs before the size-cap
check — not with `FrameTooLarge` as the claim demands for every frame. -/
theorem c8_counterexample :
    beNat [4, 0] = 1024 ∧
    (read_frame inflNone { after_handshake .Server with maxMessageSize := 1024 }
        [0x89, 0x7E, 4, 0]).fst = .error .PingFrameTooLarge ∧
    (read_frame inflNone { after_handshake .Server with maxMessageSize := 1024 }
        [0x89, 0x7E, 4, 0]).fst ≠ .error .FrameTooLarge := by
  refine ⟨by decide, by decide, by decide⟩

/-- Parsing `82 7E e1 e2` (unmasked Binary, fin set, 16-bit extended length):
only the size cap decides the outcome. -/
theorem parse_len16 (infl : List Nat → Option (List Nat)) (ws : WebSocket)
    (e1 e2 : Nat) :
    parse_frame_header infl ws [0x82, 0x7E, e1, e2]
      = if ws.maxMessageSize ≤ beNat [e1, e2] then .error .FrameTooLarge
        else match takePayload (beNat [e1, e2]) [] with
             | .error e => .error e
             | .ok (payload, rest4) => .ok (⟨true, .Binary, none, payload⟩, rest4) := by
  rfl

/-- Claim C8 (amended): for frames that reach the size check (here: an
unmasked fin Binary frame with a 16-bit extended length, which is not subject
to the earlier control-frame and Ping checks), a decoded length that is
greater than or equal to `max_message_size` — including exact equality with
the cap — fails with `FrameTooLarge`.  Frames stopped earlier (fragmented
control frames, Pings longer than 125) fail with their own errors instead. -/
theorem c8_amended (infl : List Nat → Option (List Nat)) (ws : WebSocket)
    (fuel e1 e2 : Nat) (h : ws.maxMessageSize ≤ 256 * e1 + e2) :
    read_frame_inner infl (fuel + 1) ws [0x82, 0x7E, e1, e2]
      = (.error .FrameTooLarge, ws) := by
  have hb : beNat [e1, e2] = 256 * e1 + e2 := by
    simp [beNat]
  have hp : parse_frame_header infl ws [0x82, 0x7E, e1, e2] = .error .FrameTooLarge := by
    rw [parse_len16, hb, if_pos h]
  simp [read_frame_inner, hp]

/-- Witness for `c8_amended`: the spec's max-size scenario — cap 1024, length
field exactly 1024 — fails with `FrameTooLarge` (strict `≥`). -/
theorem c8_amended_witness :
    ({ after_handshake .Server with maxMessageSize := 1024 } : WebSocket).maxMessageSize
      ≤ 256 * 4 + 0 ∧
    read_frame_inner inflNone 1 { after_handshake .Server with maxMessageSize := 1024 }
        [0x82, 0x7E, 4, 0]
      = (.error .FrameTooLarge, { after_handshake .Server with maxMessageSize := 1024 }) :=
  ⟨by decide,
    c8_amended inflNone { after_handshake .Server with maxMessageSize := 1024 } 0 4 0
      (by decide)⟩

/-- Claim C9 counterexample: on a Server session whose `closed` flag is set
(`auto_pong` still on), a received Ping `89 00` makes `read_frame` fail with
`ConnectionClosed` and no Pong is written: the closed-session check runs
before the auto-pong arm. -/
theorem c9_counterexample :
    read_frame inflNone wsClosedServer [0x89, 0]
      = (.error .ConnectionClosed, wsClosedServer) ∧
    wsClosedServer.autoPong = true ∧
    wsClosedServer.written = [] := by
  refine ⟨by decide, by decide, by decide⟩

/-- Claim C9 (amended): with `auto_pong = true` and the session not yet
closed (healthy stream), a parsed Ping frame makes the read loop write one
Pong carrying the same (unmasked) payload and continue parsing the next
frame from the remaining bytes, without returning the Ping. -/
theorem c9_amended (infl : List Nat → Option (List Nat)) (ws : WebSocket)
    (fuel : Nat) (input : List Nat) (f : Frame) (rest : List Nat)
    (hrole : ws.role = .Server) (hmask : ws.autoApplyMask = true)
    (hpong : ws.autoPong = true) (hclosed : ws.closed = false)
    (hfail : ws.writeFails = false)
    (hp : parse_frame_header infl ws input = .ok (f, rest))
    (hop : f.opcode = .Ping) :
    read_frame_inner infl (fuel + 1) ws input
      = read_frame_inner infl fuel
          { ws with written := ws.written ++ [(Frame.pong f.unmask.payload).write] } rest := by
  simp [read_frame_inner, hp, write_frame, Frame.pong, Frame.unmask_opcode,
        hrole, hmask, hclosed, hpong, hfail, hop]

/-- Witness for `c9_amended`: a Ping `89 00` followed by `82 01 07`; the
session writes the Pong `8A 00`, keeps reading, and yields the Binary
frame. -/
theorem c9_amended_witness :
    parse_frame_header inflNone (after_handshake .Server) [0x89, 0, 0x82, 1, 7]
      = .ok (⟨true, .Ping, none, []⟩, [0x82, 1, 7]) ∧
    read_frame_inner inflNone 2 (after_handshake .Server) [0x89, 0, 0x82, 1, 7]
      = read_frame_inner inflNone 1
          { after_handshake .Server with written := [[0x8A, 0]] } [0x82, 1, 7] ∧
    (read_frame_inner inflNone 2 (after_handshake .Server) [0x89, 0, 0x82, 1, 7]).fst
      = .ok ⟨true, .Binary, none, [7]⟩ :=
  ⟨by decide,
    c9_amended inflNone (after_handshake .Server) 1 [0x89, 0, 0x82, 1, 7]
      ⟨true, .Ping, none, []⟩ [0x82, 1, 7] (by decide) (by decide) (by decide)
      (by decide) (by decide) (by decide) (by decide),
    by decide⟩

/-- Parsing `88 02 a b` (unmasked Close, fin set, 2-byte body): only the size
cap decides the outcome. -/
theorem parse_close2 (infl : List Nat → Option (List Nat)) (ws : WebSocket)
    (a b : Nat) :
    parse_frame_header infl ws [0x88, 2, a, b]
      = if ws.maxMessageSize ≤ 2 then .error .FrameTooLarge
        else .ok (⟨true, .Close, none, [a, b]⟩, []) := by
  rfl

/-- Parsing `89 00` (unmasked empty Ping): only the size cap decides the
outcome. -/
theorem parse_ping0 (infl : List Nat → Option (List Nat)) (ws : WebSocket) :
    parse_frame_header infl ws [0x89, 0]
      = if ws.maxMessageSize ≤ 0 then .error .FrameTooLarge
        else .ok (⟨true, .Ping, none, []⟩, []) := by
  rfl

/-- Claim C10: on a session whose underlying writes fail, the error of the
auto-close echo write is discarded — the Close(1000) body still yields the
received frame and the Close(1004) body still fails with `InvalidCloseCode`,
in both cases with `closed` set and nothing written — whereas the error of
the auto-pong write is propagated to the caller as `IoError`. -/
theorem c10_echo_discarded_pong_propagated
    (infl : List Nat → Option (List Nat)) (ws : WebSocket) (fuel : Nat)
    (hrole : ws.role = .Server) (hac : ws.autoClose = true)
    (hap : ws.autoPong = true) (hmask : ws.autoApplyMask = true)
    (hclosed : ws.closed = false) (hfail : ws.writeFails = true)
    (hmax : 125 < ws.maxMessageSize) :
    read_frame_inner infl (fuel + 1) ws [0x88, 2, 3, 232]
      = (.ok ⟨true, .Close, none, [3, 232]⟩, { ws with closed := true }) ∧
    read_frame_inner infl (fuel + 1) ws [0x88, 2, 3, 236]
      = (.error .InvalidCloseCode, { ws with closed := true }) ∧
    read_frame_inner infl (fuel + 1) ws [0x89, 0]
      = (.error .IoError, ws) := by
  have hp1 := parse_close2 infl ws 3 232
  have hp2 := parse_close2 infl ws 3 236
  have hp3 := parse_ping0 infl ws
  rw [if_neg (by omega)] at hp1 hp2 hp3
  have hu : utf8Valid ([] : List Nat) = true := rfl
  have ha1 : CloseCode.is_allowed 1000 = true := by decide
  have ha2 : CloseCode.is_allowed 1004 = false := by decide
  refine ⟨?_, ?_, ?_⟩
  · simp [read_frame_inner, hp1, close_branch, write_frame, hrole, hac, hmask,
          hclosed, hfail, Frame.close_raw, Frame.unmask, hu, ha1, List.getD]
  · simp [read_frame_inner, hp2, close_branch, write_frame, hrole, hac, hmask,
          hclosed, hfail, Frame.close, Frame.unmask, hu, ha2, List.getD]
  · simp [read_frame_inner, hp3, write_frame, Frame.pong, Frame.unmask,
          hrole, hap, hmask, hclosed, hfail]

/-- A default Server session over a stream whose writes all fail. -/
def wsFailing : WebSocket :=
  { after_handshake .Server with writeFails := true }

/-- Witness for `c10_echo_discarded_pong_propagated` on a concrete failing
session. -/
theorem c10_witness :
    wsFailing.writeFails = true ∧
    read_frame_inner inflNone 1 wsFailing [0x88, 2, 3, 232]
      = (.ok ⟨true, .Close, none, [3, 232]⟩, { wsFailing with closed := true }) ∧
    read_frame_inner inflNone 1 wsFailing [0x88, 2, 3, 236]
      = (.error .InvalidCloseCode, { wsFailing with closed := true }) ∧
    read_frame_inner inflNone 1 wsFailing [0x89, 0]
      = (.error .IoError, wsFailing) :=
  ⟨by decide,
    (c10_echo_discarded_pong_propagated inflNone wsFailing 0 (by decide) (by decide)
      (by decide) (by decide) (by decide) (by decide) (by decide)).1,
    (c10_echo_discarded_pong_propagated inflNone wsFailing 0 (by decide) (by decide)
      (by decide) (by decide) (by decide) (by decide) (by decide)).2.1,
    (c10_echo_discarded_pong_propagated inflNone wsFailing 0 (by decide) (by decide)
      (by decide) (by decide) (by decide) (by decide) (by decide)).2.2⟩

end FastWS
